import Mathlib

/-!
Verification of the LLM provider adapter and response normalizer of the
resume-ai service (`src/lib/llm.ts`) and of its HTTP route handler
(`src/app/page.tsx`, `POST /api/improve`).

Strings are modelled as `List Char`; JavaScript regular-expression character
classes (`\s`, the quote class, the colon-dash-whitespace class) become
decidable predicates on `Char`, and each `String.prototype.replace` call of
the source becomes the corresponding deletion of characters from the front or
back of the list.
-/

namespace ResumeAI

abbrev Str := List Char

/-- The JavaScript `\s` character class (which is also exactly the character
set removed by `String.prototype.trim`): ASCII whitespace, NBSP, the Unicode
space separators, line/paragraph separators and the BOM. -/
def isJsSpace (c : Char) : Bool :=
  c = ' ' || c = '\t' || c = '\n' || c = (Char.ofNat 0x0B) || c = (Char.ofNat 0x0C) ||
  c = '\r' || c = (Char.ofNat 0xA0) || c = (Char.ofNat 0x1680) ||
  (0x2000 ≤ c.toNat && c.toNat ≤ 0x200A) ||
  c = (Char.ofNat 0x2028) || c = (Char.ofNat 0x2029) || c = (Char.ofNat 0x202F) ||
  c = (Char.ofNat 0x205F) || c = (Char.ofNat 0x3000) || c = (Char.ofNat 0xFEFF)

/-- The character class `["']` of the quote-stripping step. -/
def isQuote (c : Char) : Bool :=
  c = '"' || c = '\''

/-- The character class `[:-\s]` of the punctuation-stripping step: in a
JavaScript regex this class is colon, literal dash, and whitespace. -/
def isPunctClass (c : Char) : Bool :=
  c = ':' || c = '-' || isJsSpace c

/-- Delete the longest run of characters satisfying `p` from the END of the
list (the `X+$` half of the anchored replace calls). -/
def dropEndWhile (p : Char → Bool) (s : Str) : Str :=
  (s.reverse.dropWhile p).reverse

/-- JavaScript string trim: drop whitespace from both ends. -/
def trimBoth (s : Str) : Str :=
  dropEndWhile isJsSpace (s.dropWhile isJsSpace)

/-- Case-insensitive match of a (lower-case, ASCII) label pattern at the
start of the string, as performed by the anchored `/^label/i` regexes. -/
def matchesCI : Str → Str → Bool
  | [], _ => true
  | _ :: _, [] => false
  | p :: ps, c :: cs => (c.toLower = p) && matchesCI ps cs

/-- One anchored case-insensitive replace call of the label loop: if the
label matches at the start, remove it together with the following whitespace
run, else leave the string unchanged. -/
def stripLabel (pat : Str) (s : Str) : Str :=
  if matchesCI pat s then (s.drop pat.length).dropWhile isJsSpace else s

/-- The seven label patterns of `cleanResponse`, in source order, stored in
lower case because the regexes carry the `i` flag. -/
def labelPats : List Str :=
  [ "improved resume bullet:".toList
  , "improved bullet:".toList
  , "improved:".toList
  , "resume bullet:".toList
  , "bullet:".toList
  , "output:".toList
  , "result:".toList ]

/-- The label-stripping loop of `cleanResponse`: every pattern is tried in
order against the current string, with no early exit after a match. -/
def stripLabels (s : Str) : Str :=
  labelPats.foldl (fun acc p => stripLabel p acc) s

/-- The quote-stripping replace of `cleanResponse`: delete the longest runs
of quote characters at the start and at the end. -/
def quoteStrip (s : Str) : Str :=
  dropEndWhile isQuote (s.dropWhile isQuote)

/-- The punctuation-stripping replace of `cleanResponse`: delete the longest
runs of colon-dash-whitespace characters at the start and at the end. -/
def punctStrip (s : Str) : Str :=
  dropEndWhile isPunctClass (s.dropWhile isPunctClass)

/-- The function `cleanResponse` from `src/lib/llm.ts`: trim, strip labels,
strip quotes, strip leading/trailing colon-dash-whitespace runs, re-trim. -/
def cleanResponse (s : Str) : Str :=
  trimBoth (punctStrip (quoteStrip (stripLabels (trimBoth s))))

/-- The normalizer lifted to Lean strings. -/
def cleanResponseStr (s : String) : String :=
  String.mk (cleanResponse s.toList)

/-- Does some label of the known-prefix set match at the front? -/
def hasLabelAtFront (s : Str) : Bool :=
  labelPats.any (fun p => matchesCI p s)

/-- The head of the list, if any, does not satisfy `p`. -/
def headNot (p : Char → Bool) : Str → Bool
  | [] => true
  | c :: _ => !p c

/-- The last element of the list, if any, does not satisfy `p`. -/
def lastNot (p : Char → Bool) (s : Str) : Bool :=
  headNot p s.reverse

/-- Alternative label stripping that follows the SPEC's words rather than
the source ("remove only the first match found by trying the set in a fixed
priority order, then continue"): locate the first pattern of the set that
matches at the front, strip that one match, and stop. Used only to compare
the specified behavior with the source's `stripLabels`. -/
def stripFirstLabelOnly (s : Str) : Str :=
  match labelPats.find? (fun p => matchesCI p s) with
  | some p => stripLabel p s
  | none => s

/-- JavaScript `replace` with a plain-string pattern and empty replacement:
delete the leftmost occurrence of `pat` (if any), scanning from the left. -/
def removeFirst (pat : Str) : Str → Str
  | [] => []
  | c :: rest =>
    if pat.isPrefixOf (c :: rest) then (c :: rest).drop pat.length
    else c :: removeFirst pat rest

/-- Alternative prompt-echo stripping that follows the SPEC's words rather
than the source ("with the original prompt stripped from the front if
echoed"): remove the prompt only when it sits at the very front. Used only
to compare the specified behavior with the source's extraction. -/
def stripEchoFront (pat s : Str) : Str :=
  if pat.isPrefixOf s then s.drop pat.length else s

/-- The configuration record of the adapter (`LLMConfig` in the source).
The provider tag is a plain string because the dispatch also has to be
examined at unrecognized values. -/
structure LLMConfig where
  provider : String
  apiKey : String
  model : Option String
  baseUrl : Option String

/-- The uniform adapter result (`LLMResponse` in the source). -/
structure LLMResponse where
  text : String
  error : Option String
deriving DecidableEq

/-- The observable part of a chat-completion HTTP reply, as consumed by the
source: the success flag, the parsed error message (the path
`error.error?.message`), the HTTP status text, and the completion content
(the path `choices[0]?.message?.content`). -/
structure ChatReply where
  ok : Bool
  errorMessage : Option String
  statusText : String
  content : Option String

/-- The observable part of a Hugging Face HTTP reply, as consumed by the
source: the success flag, the parsed error string (the path `error.error`),
the HTTP status text, and the generated text (the path
`data[0]?.generated_text` when the body is an array, `none` otherwise). -/
structure HFReply where
  ok : Bool
  errorField : Option String
  statusText : String
  generated : Option String

/-- JavaScript string trim lifted to Lean strings. -/
def jsTrim (s : String) : String :=
  String.mk (trimBoth s.toList)

/-- The fixed instructional prompt template of `improveResumeBullet`. -/
def promptTemplate (inputText : String) : String :=
  "You are a senior FAANG resume coach and professional technical resume writer.\n\nRewrite the following resume bullet using the Google X–Y–Z formula:\n\n\"Accomplished X by doing Y resulting in Z.\"\n\nRequirements:\n\n- Be extremely specific and impact-focused\n\n- Add realistic, quantifiable metrics (%, $, time, scale, or volume) when possible\n\n- Use strong action verbs and technical language\n\n- Keep it to ONE concise professional resume bullet (one line only)\n\n- Do NOT include explanations, prefixes, or quotation marks\n\n- Return ONLY the improved bullet\n\nResume Bullet: " ++ inputText

/-- The raw completion a chat backend yields: the content, trimmed, with a
missing or empty content collapsing to the empty string. -/
def chatRawText (reply : ChatReply) : String :=
  (reply.content.map jsTrim).getD ""

/-- The raw completion of the Hugging Face backend: the index-0 element's
generated text, with the first occurrence of the prompt deleted, trimmed; a
missing array or falsy generated text collapses to the empty string. -/
def hfRawText (prompt : String) (reply : HFReply) : String :=
  match reply.generated with
  | some g =>
    if g = "" then ""
    else String.mk (trimBoth (removeFirst prompt.toList g.toList))
  | none => ""

/-- The `callOpenAI` backend of `src/lib/llm.ts`, as a function of the HTTP
reply it observes; a thrown error is an `Except.error`. -/
def callOpenAI (prompt : String) (config : LLMConfig) (reply : ChatReply) :
    Except String String :=
  if reply.ok then
    if chatRawText reply = "" then Except.error "No response from OpenAI"
    else Except.ok (cleanResponseStr (chatRawText reply))
  else
    Except.error (reply.errorMessage.getD ("OpenAI API error: " ++ reply.statusText))

/-- The `callGroq` backend, identical to `callOpenAI` up to host, default
model and message wording. -/
def callGroq (prompt : String) (config : LLMConfig) (reply : ChatReply) :
    Except String String :=
  if reply.ok then
    if chatRawText reply = "" then Except.error "No response from Groq"
    else Except.ok (cleanResponseStr (chatRawText reply))
  else
    Except.error (reply.errorMessage.getD ("Groq API error: " ++ reply.statusText))

/-- The `callHuggingFace` backend of `src/lib/llm.ts`. -/
def callHuggingFace (prompt : String) (config : LLMConfig) (reply : HFReply) :
    Except String String :=
  if reply.ok then
    if hfRawText prompt reply = "" then Except.error "No response from Hugging Face"
    else Except.ok (cleanResponseStr (hfRawText prompt reply))
  else
    Except.error (reply.errorField.getD ("Hugging Face API error: " ++ reply.statusText))

/-- The try/catch wrapper of `improveResumeBullet`: a thrown error becomes a
result with empty text and the error message filled in. -/
def toLLMResponse : Except String String → LLMResponse
  | Except.ok t => { text := t, error := none }
  | Except.error e => { text := "", error := some e }

/-- The dispatcher `improveResumeBullet` of `src/lib/llm.ts`. The three
possible HTTP replies stand for the network; the second component counts the
outbound HTTP calls the chosen branch performs (each backend performs
exactly one fetch, the unsupported-provider branch throws before any). -/
def improveResumeBullet (inputText : String) (config : LLMConfig)
    (openaiReply groqReply : ChatReply) (hfReply : HFReply) :
    LLMResponse × Nat :=
  if config.provider = "openai" then
    (toLLMResponse (callOpenAI (promptTemplate inputText) config openaiReply), 1)
  else if config.provider = "groq" then
    (toLLMResponse (callGroq (promptTemplate inputText) config groqReply), 1)
  else if config.provider = "huggingface" then
    (toLLMResponse (callHuggingFace (promptTemplate inputText) config hfReply), 1)
  else
    ({ text := "", error := some ("Unsupported provider: " ++ config.provider) }, 0)

/-- A JSON value, as far as the route's validation can distinguish one. -/
inductive JsonValue where
  | jstr (s : String)
  | jnum (n : Int)
  | jbool (b : Bool)
  | jnull
  | jobj
  | jarr
deriving DecidableEq

/-- The environment variables the route reads. -/
structure Env where
  llmProvider : Option String
  llmApiKey : Option String
  llmModel : Option String
  llmBaseUrl : Option String

/-- The JSON body and status the route responds with. -/
structure ApiResponse where
  status : Nat
  improvedText : Option String
  error : Option String
deriving DecidableEq

/-- The outcome of the storage insert attempt: success, an error value from
the insert, or a thrown exception (e.g. an unconfigured client). -/
inductive StorageOutcome where
  | insertOk
  | insertError (msg : String)
  | thrown (msg : String)

/-- What a POST invocation produces: the HTTP response, the number of
outbound provider calls, and the storage error logged to the console, if
any. -/
structure PostResult where
  response : ApiResponse
  netCalls : Nat
  storageLog : Option String
deriving DecidableEq

/-- The route's input validation: the request passes exactly when the
`inputText` field is present, is a string, and is non-empty after trimming
(the JavaScript test rejects a missing field, a falsy value, any non-string,
and a whitespace-only string). -/
def validInputText : Option JsonValue → Option String
  | some (JsonValue.jstr s) => if jsTrim s = "" then none else some s
  | _ => none

/-- The `POST /api/improve` handler of the route file: validate the input,
read the configuration, dispatch to the adapter, attempt the best-effort
storage insert, and respond. -/
def POST (inputText : Option JsonValue) (env : Env)
    (openaiReply groqReply : ChatReply) (hfReply : HFReply)
    (storage : StorageOutcome) : PostResult :=
  match validInputText inputText with
  | none =>
    let resp : ApiResponse :=
      { status := 400, improvedText := none, error := some "Input text is required" }
    { response := resp, netCalls := 0, storageLog := none }
  | some s =>
    let providerEnv := env.llmProvider.getD ""
    let llmProvider := if providerEnv = "" then "openai" else providerEnv
    let llmApiKey := env.llmApiKey.getD ""
    if llmApiKey = "" then
      let msg := "LLM API key not configured. Please set LLM_API_KEY in your .env.local file."
      let resp : ApiResponse := { status := 500, improvedText := none, error := some msg }
      { response := resp, netCalls := 0, storageLog := none }
    else
      let llmConfig : LLMConfig :=
        { provider := llmProvider, apiKey := llmApiKey,
          model := env.llmModel, baseUrl := env.llmBaseUrl }
      let r := improveResumeBullet (jsTrim s) llmConfig openaiReply groqReply hfReply
      if (r.1).error.isSome || (r.1).text = "" then
        let msg := (r.1).error.getD "Failed to improve bullet point"
        let resp : ApiResponse := { status := 500, improvedText := none, error := some msg }
        { response := resp, netCalls := r.2, storageLog := none }
      else
        let resp : ApiResponse :=
          { status := 200, improvedText := some (r.1).text, error := none }
        let slog : Option String :=
          match storage with
          | StorageOutcome.insertOk => none
          | StorageOutcome.insertError m => some ("Database error: " ++ m)
          | StorageOutcome.thrown m => some ("Supabase not configured: " ++ m)
        { response := resp, netCalls := r.2, storageLog := slog }

/-! ## Structural lemmas about the stripping steps -/

lemma headNot_dropWhile (p : Char → Bool) (l : Str) :
    headNot p (l.dropWhile p) = true := by
  induction l with
  | nil => rfl
  | cons c t ih =>
    by_cases h : p c = true
    · simpa [List.dropWhile_cons, h] using ih
    · simp [List.dropWhile_cons, h, headNot]

lemma dropWhile_eq_self (p : Char → Bool) (l : Str) (h : headNot p l = true) :
    l.dropWhile p = l := by
  cases l with
  | nil => rfl
  | cons c t =>
    simp only [headNot, Bool.not_eq_true'] at h
    simp [List.dropWhile_cons, h]

lemma dropWhile_isSuffix (p : Char → Bool) (l : Str) : l.dropWhile p <:+ l := by
  induction l with
  | nil => exact ⟨[], rfl⟩
  | cons c t ih =>
    by_cases h : p c = true
    · obtain ⟨u, hu⟩ := ih
      exact ⟨c :: u, by simp [List.dropWhile_cons, h, hu]⟩
    · exact ⟨[], by simp [List.dropWhile_cons, h]⟩

lemma dropEndWhile_reverse (p : Char → Bool) (l : Str) :
    (dropEndWhile p l).reverse = l.reverse.dropWhile p := by
  simp [dropEndWhile]

lemma lastNot_dropEndWhile (p : Char → Bool) (l : Str) :
    lastNot p (dropEndWhile p l) = true := by
  unfold lastNot
  rw [dropEndWhile_reverse]
  exact headNot_dropWhile p l.reverse

lemma dropEndWhile_eq_self (p : Char → Bool) (l : Str) (h : lastNot p l = true) :
    dropEndWhile p l = l := by
  unfold lastNot at h
  unfold dropEndWhile
  rw [dropWhile_eq_self p l.reverse h, List.reverse_reverse]

lemma dropEndWhile_front (p : Char → Bool) (l : Str) : dropEndWhile p l <+: l := by
  obtain ⟨u, hu⟩ := dropWhile_isSuffix p l.reverse
  refine ⟨u.reverse, ?_⟩
  have h2 := congrArg List.reverse hu
  simpa [dropEndWhile, List.reverse_append] using h2

lemma headNot_of_front {q : Char → Bool} {a l : Str} (h : a <+: l)
    (hl : headNot q l = true) : headNot q a = true := by
  obtain ⟨u, hu⟩ := h
  cases a with
  | nil => rfl
  | cons c t =>
    subst hu
    simpa [headNot] using hl

lemma lastNot_of_isSuffix {q : Char → Bool} {a l : Str} (h : a <:+ l)
    (hl : lastNot q l = true) : lastNot q a = true := by
  obtain ⟨u, hu⟩ := h
  unfold lastNot at hl ⊢
  refine headNot_of_front ⟨u.reverse, ?_⟩ hl
  rw [← hu, List.reverse_append]

lemma headNot_mono {p q : Char → Bool} (hpq : ∀ c, q c = true → p c = true) :
    ∀ {l : Str}, headNot p l = true → headNot q l = true
  | [], _ => rfl
  | c :: t, h => by
    cases hqc : q c with
    | false => simp [headNot, hqc]
    | true =>
      have hp := hpq c hqc
      simp [headNot, hp] at h

lemma lastNot_mono {p q : Char → Bool} (hpq : ∀ c, q c = true → p c = true)
    {l : Str} (h : lastNot p l = true) : lastNot q l = true := by
  unfold lastNot at h ⊢
  exact headNot_mono hpq h

lemma isJsSpace_isPunct : ∀ c, isJsSpace c = true → isPunctClass c = true := by
  intro c h
  simp [isPunctClass, h]

lemma stripLabel_isSuffix (pat : Str) (s : Str) : stripLabel pat s <:+ s := by
  unfold stripLabel
  by_cases h : matchesCI pat s = true
  · rw [if_pos h]
    exact (dropWhile_isSuffix _ _).trans ⟨s.take pat.length, List.take_append_drop _ _⟩
  · rw [if_neg h]

lemma foldl_stripLabel_isSuffix :
    ∀ (pats : List Str) (s : Str),
      List.foldl (fun acc p => stripLabel p acc) s pats <:+ s
  | [], _ => ⟨[], rfl⟩
  | p :: ps, s =>
    (foldl_stripLabel_isSuffix ps (stripLabel p s)).trans (stripLabel_isSuffix p s)

lemma stripLabels_isSuffix (s : Str) : stripLabels s <:+ s :=
  foldl_stripLabel_isSuffix labelPats s

lemma foldl_stripLabel_eq_self :
    ∀ (pats : List Str) (s : Str), (∀ p ∈ pats, matchesCI p s = false) →
      List.foldl (fun acc p => stripLabel p acc) s pats = s
  | [], _, _ => rfl
  | p :: ps, s, h => by
    have hp : matchesCI p s = false := h p (List.mem_cons_self p ps)
    have hstep : stripLabel p s = s := by
      unfold stripLabel
      rw [if_neg (by simp [hp])]
    rw [List.foldl_cons, hstep]
    exact foldl_stripLabel_eq_self ps s (fun q hq => h q (List.mem_cons_of_mem p hq))

lemma stripLabels_eq_self {s : Str} (h : hasLabelAtFront s = false) :
    stripLabels s = s := by
  unfold hasLabelAtFront at h
  unfold stripLabels
  apply foldl_stripLabel_eq_self
  intro p hp
  have h2 := List.any_eq_false.mp h p hp
  simpa using h2

lemma punctStrip_headNot (l : Str) : headNot isPunctClass (punctStrip l) = true := by
  unfold punctStrip
  exact headNot_of_front (dropEndWhile_front _ _) (headNot_dropWhile _ _)

lemma punctStrip_lastNot (l : Str) : lastNot isPunctClass (punctStrip l) = true :=
  lastNot_dropEndWhile _ _

lemma trimBoth_eq_self {l : Str} (h1 : headNot isJsSpace l = true)
    (h2 : lastNot isJsSpace l = true) : trimBoth l = l := by
  unfold trimBoth
  rw [dropWhile_eq_self _ _ h1]
  exact dropEndWhile_eq_self _ _ h2

lemma quoteStrip_eq_self {l : Str} (h1 : headNot isQuote l = true)
    (h2 : lastNot isQuote l = true) : quoteStrip l = l := by
  unfold quoteStrip
  rw [dropWhile_eq_self _ _ h1]
  exact dropEndWhile_eq_self _ _ h2

lemma punctStrip_eq_self {l : Str} (h1 : headNot isPunctClass l = true)
    (h2 : lastNot isPunctClass l = true) : punctStrip l = l := by
  unfold punctStrip
  rw [dropWhile_eq_self _ _ h1]
  exact dropEndWhile_eq_self _ _ h2

lemma trimBoth_punctStrip (l : Str) : trimBoth (punctStrip l) = punctStrip l :=
  trimBoth_eq_self (headNot_mono isJsSpace_isPunct (punctStrip_headNot l))
    (lastNot_mono isJsSpace_isPunct (punctStrip_lastNot l))

lemma cleanResponse_eq (s : Str) :
    cleanResponse s = punctStrip (quoteStrip (stripLabels (trimBoth s))) := by
  unfold cleanResponse
  exact trimBoth_punctStrip _

lemma cleanResponse_headNot (s : Str) :
    headNot isPunctClass (cleanResponse s) = true := by
  rw [cleanResponse_eq]
  exact punctStrip_headNot _

lemma cleanResponse_lastNot (s : Str) :
    lastNot isPunctClass (cleanResponse s) = true := by
  rw [cleanResponse_eq]
  exact punctStrip_lastNot _

lemma dropBoth_isInfix (p : Char → Bool) (l : Str) :
    dropEndWhile p (l.dropWhile p) <:+: l :=
  ((dropEndWhile_front p _).isInfix).trans ((dropWhile_isSuffix p l).isInfix)

lemma trimBoth_isInfix (l : Str) : trimBoth l <:+: l :=
  dropBoth_isInfix isJsSpace l

lemma quoteStrip_isInfix (l : Str) : quoteStrip l <:+: l :=
  dropBoth_isInfix isQuote l

lemma punctStrip_isInfix (l : Str) : punctStrip l <:+: l :=
  dropBoth_isInfix isPunctClass l

lemma stripLabels_isInfix (l : Str) : stripLabels l <:+: l :=
  (stripLabels_isSuffix l).isInfix

lemma toList_mk (l : Str) : (String.mk l).toList = l := rfl

lemma toList_cleanResponseStr (s : String) :
    (cleanResponseStr s).toList = cleanResponse s.toList := by
  unfold cleanResponseStr
  exact toList_mk _

/-! ## Claim theorems -/

/-- C1 (counterexample): the normalizer is NOT idempotent. On the input
`-"x"-` the punctuation-stripping step exposes a quoted string, so the first
application yields `"x"` while a second application strips the quotes and
yields `x`. -/
theorem cleanResponse_not_idempotent :
    cleanResponse (cleanResponse "-\"x\"-".toList) ≠ cleanResponse "-\"x\"-".toList := by
  decide

/-- C1 (amended): the normalizer is idempotent on every input whose cleaned
form has no leading known label and no leading or trailing quote character
(the function itself never introduces characters, so these are the only ways
a second application can strip further). -/
theorem cleanResponse_idem_of_clean (s : Str)
    (hlab : hasLabelAtFront (cleanResponse s) = false)
    (hq1 : headNot isQuote (cleanResponse s) = true)
    (hq2 : lastNot isQuote (cleanResponse s) = true) :
    cleanResponse (cleanResponse s) = cleanResponse s := by
  have hh := cleanResponse_headNot s
  have hl := cleanResponse_lastNot s
  have htrim : trimBoth (cleanResponse s) = cleanResponse s :=
    trimBoth_eq_self (headNot_mono isJsSpace_isPunct hh) (lastNot_mono isJsSpace_isPunct hl)
  have hstrip : stripLabels (cleanResponse s) = cleanResponse s := stripLabels_eq_self hlab
  have hquote : quoteStrip (cleanResponse s) = cleanResponse s := quoteStrip_eq_self hq1 hq2
  have hpunct : punctStrip (cleanResponse s) = cleanResponse s := punctStrip_eq_self hh hl
  calc cleanResponse (cleanResponse s)
      = trimBoth (punctStrip (quoteStrip (stripLabels (trimBoth (cleanResponse s))))) := rfl
    _ = cleanResponse s := by rw [htrim, hstrip, hquote, hpunct, htrim]

/-- C1 (witness): the amended idempotence applied at a concrete input. -/
theorem cleanResponse_idem_of_clean_witness :
    hasLabelAtFront (cleanResponse "Output: success".toList) = false ∧
    headNot isQuote (cleanResponse "Output: success".toList) = true ∧
    lastNot isQuote (cleanResponse "Output: success".toList) = true ∧
    cleanResponse (cleanResponse "Output: success".toList) =
      cleanResponse "Output: success".toList :=
  ⟨by decide, by decide, by decide,
    cleanResponse_idem_of_clean _ (by decide) (by decide) (by decide)⟩

/-- C2 (counterexample): the output of the normalizer can still carry a
leading label from the known-prefix set: on `Bullet:Bullet: x` the loop
strips the first `Bullet:` and the exposed second one survives every later
step. -/
theorem cleanResponse_leading_label_survives :
    cleanResponse "Bullet:Bullet: x".toList = "Bullet: x".toList ∧
    hasLabelAtFront (cleanResponse "Bullet:Bullet: x".toList) = true := by
  decide

/-- C2 (amended): for every non-empty input the normalizer terminates (it is
a total function) and its output has no leading or trailing run of colon,
dash, and whitespace characters: stripping such runs again, or trimming
again, changes nothing. -/
theorem cleanResponse_no_edge_punct (s : Str) (h : s ≠ []) :
    punctStrip (cleanResponse s) = cleanResponse s ∧
    trimBoth (cleanResponse s) = cleanResponse s := by
  have hh := cleanResponse_headNot s
  have hl := cleanResponse_lastNot s
  exact ⟨punctStrip_eq_self hh hl,
    trimBoth_eq_self (headNot_mono isJsSpace_isPunct hh) (lastNot_mono isJsSpace_isPunct hl)⟩

/-- C2 (witness): the amended postcondition at a concrete non-empty input. -/
theorem cleanResponse_no_edge_punct_witness :
    ("  Result: - Improved onboarding. -  ".toList ≠ ([] : Str)) ∧
    punctStrip (cleanResponse "  Result: - Improved onboarding. -  ".toList) =
      cleanResponse "  Result: - Improved onboarding. -  ".toList ∧
    trimBoth (cleanResponse "  Result: - Improved onboarding. -  ".toList) =
      cleanResponse "  Result: - Improved onboarding. -  ".toList :=
  ⟨by decide,
    (cleanResponse_no_edge_punct _ (by decide)).1,
    (cleanResponse_no_edge_punct _ (by decide)).2⟩

/-- C3 (counterexample): the label-stripping loop does not stop after the
first matching pattern. On `Improved: Output: x` it strips `Improved:` and
then also `Output:`, while stripping only the first match of the priority
order would leave `Output: x`. -/
theorem stripLabels_strips_multiple :
    stripLabels "Improved: Output: x".toList = "x".toList ∧
    stripFirstLabelOnly "Improved: Output: x".toList = "Output: x".toList := by
  decide

/-- C3 (amended): the label-stripping step tries the patterns in a fixed
priority order and strips at most one match per pattern from the start of
the current string, so it only ever deletes a block of leading labels — the
result is a suffix of the input — and it leaves the string unchanged when no
pattern matches at the front. -/
theorem stripLabels_suffix_and_inert (s : Str) :
    stripLabels s <:+ s ∧ (hasLabelAtFront s = false → stripLabels s = s) :=
  ⟨stripLabels_isSuffix s, fun h => stripLabels_eq_self h⟩

/-- C3 (witness): the amended statement at a concrete input with no label. -/
theorem stripLabels_suffix_and_inert_witness :
    stripLabels "hello".toList <:+ "hello".toList ∧
    stripLabels "hello".toList = "hello".toList :=
  ⟨(stripLabels_suffix_and_inert "hello".toList).1,
    (stripLabels_suffix_and_inert "hello".toList).2 (by decide)⟩

/-- C5: the two concrete normalization examples of the spec, verified by
evaluation of the embedded `cleanResponse`. -/
theorem cleanResponse_examples :
    cleanResponse "Improved Bullet: \"Cut deployment time by 40%.\"".toList =
      "Cut deployment time by 40%.".toList ∧
    cleanResponse "  Result: - Improved onboarding. -  ".toList =
      "Improved onboarding.".toList := by
  decide

/-- C10: the normalizer only deletes characters from the two ends of the
current string at every step, so its output is a contiguous substring of its
input. -/
theorem cleanResponse_isInfix (s : Str) : cleanResponse s <:+: s :=
  (trimBoth_isInfix _).trans ((punctStrip_isInfix _).trans
    ((quoteStrip_isInfix _).trans ((stripLabels_isInfix _).trans (trimBoth_isInfix s))))

/-- C4 (counterexample): a success result of the chat adapter can have an
empty text field (raw completion `::` is non-empty but normalizes to the
empty string), and can retain a leading known label (raw completion
`Bullet:Bullet: x` normalizes to `Bullet: x`). -/
theorem callOpenAI_ok_violations :
    callOpenAI "" { provider := "openai", apiKey := "k", model := none, baseUrl := none }
        { ok := true, errorMessage := none, statusText := "OK", content := some "::" } =
      Except.ok "" ∧
    callOpenAI "" { provider := "openai", apiKey := "k", model := none, baseUrl := none }
        { ok := true, errorMessage := none, statusText := "OK",
          content := some "Bullet:Bullet: x" } =
      Except.ok "Bullet: x" ∧
    hasLabelAtFront "Bullet: x".toList = true :=
  ⟨rfl, rfl, by decide⟩

/-- C4 (amended): every success result of the chat adapter is the
normalization of a raw completion, so its text has no leading or trailing
run of colon, dash, and whitespace characters; it can however be empty or
retain a label or quotes when stripping re-exposes them. -/
theorem callOpenAI_ok_no_edge_punct (prompt : String) (config : LLMConfig)
    (reply : ChatReply) (t : String)
    (h : callOpenAI prompt config reply = Except.ok t) :
    punctStrip t.toList = t.toList ∧ trimBoth t.toList = t.toList := by
  unfold callOpenAI at h
  by_cases hok : reply.ok = true
  · rw [if_pos hok] at h
    by_cases hraw : chatRawText reply = ""
    · rw [if_pos hraw] at h
      exact Except.noConfusion h
    · rw [if_neg hraw] at h
      injection h with h2
      subst h2
      rw [toList_cleanResponseStr]
      have hh := cleanResponse_headNot (chatRawText reply).toList
      have hl := cleanResponse_lastNot (chatRawText reply).toList
      exact ⟨punctStrip_eq_self hh hl,
        trimBoth_eq_self (headNot_mono isJsSpace_isPunct hh)
          (lastNot_mono isJsSpace_isPunct hl)⟩
  · rw [if_neg hok] at h
    exact Except.noConfusion h

/-- C4 (witness): the amended success invariant at a concrete reply. -/
theorem callOpenAI_ok_no_edge_punct_witness :
    callOpenAI "" { provider := "openai", apiKey := "k", model := none, baseUrl := none }
        { ok := true, errorMessage := none, statusText := "OK",
          content := some "Improved: done" } =
      Except.ok "done" ∧
    punctStrip ("done" : String).toList = ("done" : String).toList ∧
    trimBoth ("done" : String).toList = ("done" : String).toList :=
  ⟨rfl,
    (callOpenAI_ok_no_edge_punct ""
      { provider := "openai", apiKey := "k", model := none, baseUrl := none }
      { ok := true, errorMessage := none, statusText := "OK",
        content := some "Improved: done" } "done" rfl).1,
    (callOpenAI_ok_no_edge_punct ""
      { provider := "openai", apiKey := "k", model := none, baseUrl := none }
      { ok := true, errorMessage := none, statusText := "OK",
        content := some "Improved: done" } "done" rfl).2⟩

/-- C6: on a provider value outside the three recognized backends the
dispatcher returns an error result whose message interpolates the value into
`Unsupported provider: `, and performs zero network calls. -/
theorem improveResumeBullet_unsupported (inputText : String) (config : LLMConfig)
    (openaiReply groqReply : ChatReply) (hfReply : HFReply)
    (h1 : config.provider ≠ "openai") (h2 : config.provider ≠ "groq")
    (h3 : config.provider ≠ "huggingface") :
    improveResumeBullet inputText config openaiReply groqReply hfReply =
      ({ text := "", error := some ("Unsupported provider: " ++ config.provider) }, 0) := by
  unfold improveResumeBullet
  rw [if_neg h1, if_neg h2, if_neg h3]

/-- C6 (witness): the dispatch failure at a concrete unrecognized provider. -/
theorem improveResumeBullet_unsupported_witness :
    improveResumeBullet "x" { provider := "cohere", apiKey := "k", model := none, baseUrl := none }
        { ok := true, errorMessage := none, statusText := "OK", content := some "y" }
        { ok := true, errorMessage := none, statusText := "OK", content := some "y" }
        { ok := true, errorField := none, statusText := "OK", generated := some "y" } =
      ({ text := "", error := some "Unsupported provider: cohere" }, 0) :=
  improveResumeBullet_unsupported "x" _ _ _ _ (by decide) (by decide) (by decide)

/-- C7: a request whose `inputText` is missing, not a string, or empty after
trimming is answered with the 400 validation response, with zero provider
calls and no storage attempt. -/
theorem POST_invalid_input_rejected (b : Option JsonValue) (env : Env)
    (openaiReply groqReply : ChatReply) (hfReply : HFReply) (st : StorageOutcome)
    (h : ∀ s, b = some (JsonValue.jstr s) → jsTrim s = "") :
    POST b env openaiReply groqReply hfReply st =
      { response := { status := 400, improvedText := none, error := some "Input text is required" },
        netCalls := 0, storageLog := none } := by
  have hv : validInputText b = none := by
    cases b with
    | none => rfl
    | some v =>
      cases v with
      | jstr s => simp [validInputText, h s rfl]
      | jnum n => rfl
      | jbool x => rfl
      | jnull => rfl
      | jobj => rfl
      | jarr => rfl
  unfold POST
  rw [hv]

/-- C7 (witness): the validation rejection at a concrete request with the
field absent. -/
theorem POST_invalid_input_rejected_witness :
    POST none { llmProvider := none, llmApiKey := some "k", llmModel := none, llmBaseUrl := none }
        { ok := true, errorMessage := none, statusText := "OK", content := some "y" }
        { ok := true, errorMessage := none, statusText := "OK", content := some "y" }
        { ok := true, errorField := none, statusText := "OK", generated := some "y" }
        StorageOutcome.insertOk =
      { response := { status := 400, improvedText := none, error := some "Input text is required" },
        netCalls := 0, storageLog := none } :=
  POST_invalid_input_rejected none _ _ _ _ _ (fun _ hs => Option.noConfusion hs)

/-- The response of the route never depends on the storage outcome: the
insert is attempted only after the response body has been fixed, and a
failure only changes what is logged. -/
lemma POST_response_storage_indep (b : Option JsonValue) (env : Env)
    (openaiReply groqReply : ChatReply) (hfReply : HFReply)
    (st st' : StorageOutcome) :
    (POST b env openaiReply groqReply hfReply st).response =
      (POST b env openaiReply groqReply hfReply st').response := by
  cases hv : validInputText b with
  | none => simp only [POST, hv]
  | some s =>
    simp only [POST, hv]
    split_ifs <;> rfl

/-- C9: when the LLM call succeeds and the route has computed its 200
response with the improved text, every storage outcome — success, insert
error, or thrown exception — leaves that response unchanged. -/
theorem POST_storage_preserves_success (b : Option JsonValue) (env : Env)
    (openaiReply groqReply : ChatReply) (hfReply : HFReply)
    (st : StorageOutcome) (t : String)
    (h : (POST b env openaiReply groqReply hfReply StorageOutcome.insertOk).response =
      { status := 200, improvedText := some t, error := none }) :
    (POST b env openaiReply groqReply hfReply st).response =
      { status := 200, improvedText := some t, error := none } := by
  rw [POST_response_storage_indep b env openaiReply groqReply hfReply st StorageOutcome.insertOk]
  exact h

/-- C9 (witness): a concrete end-to-end success whose response survives a
thrown storage exception. -/
theorem POST_storage_preserves_success_witness :
    (POST (some (JsonValue.jstr "Led team"))
        { llmProvider := none, llmApiKey := some "k", llmModel := none, llmBaseUrl := none }
        { ok := true, errorMessage := none, statusText := "OK", content := some "Boosted revenue" }
        { ok := true, errorMessage := none, statusText := "OK", content := none }
        { ok := true, errorField := none, statusText := "OK", generated := none }
        (StorageOutcome.thrown "no config")).response =
      { status := 200, improvedText := some "Boosted revenue", error := none } :=
  POST_storage_preserves_success _ _ _ _ _ _ _ (by decide)

/-- The Bool test that a pattern list sits at the front of a list of
characters holds for any list extending the pattern. -/
lemma isPrefixOf_append_self : ∀ (l r : Str), (l.isPrefixOf (l ++ r)) = true
  | [], r => by cases r <;> rfl
  | a :: t, r => by
    show (a == a && t.isPrefixOf (t ++ r)) = true
    rw [isPrefixOf_append_self t r]
    simp

/-- Deleting the first occurrence of a pattern from a list that starts with
that very pattern deletes exactly the leading copy. -/
lemma removeFirst_append_self : ∀ (pat r : Str), removeFirst pat (pat ++ r) = r := by
  intro pat r
  cases pat with
  | nil =>
    cases r with
    | nil => rfl
    | cons c cs => rfl
  | cons a t =>
    show (if (a :: t).isPrefixOf (a :: (t ++ r)) then
        (a :: (t ++ r)).drop (a :: t).length
      else a :: removeFirst (a :: t) (t ++ r)) = r
    have hp : ((a :: t).isPrefixOf (a :: (t ++ r))) = true :=
      isPrefixOf_append_self (a :: t) r
    rw [if_pos hp]
    exact List.drop_left (a :: t) r

/-- C8 (counterexample): the Hugging Face extraction does not strip the
prompt only from the front: with prompt `Q` and generated text `xQy` — the
prompt is not an echo at the front — the code still deletes the embedded
occurrence and yields `xy`, while front-only stripping leaves `xQy`. -/
theorem callHuggingFace_strips_mid_occurrence :
    hfRawText "Q"
      { ok := true, errorField := none, statusText := "OK", generated := some "xQy" } = "xy" ∧
    String.mk (trimBoth (stripEchoFront "Q".toList "xQy".toList)) = "xQy" ∧
    ("xy" : String) ≠ "xQy" :=
  ⟨rfl, rfl, by decide⟩

/-- C8 (amended): the Hugging Face adapter extracts the index-0 element's
generated text and deletes the first occurrence of the prompt anywhere in
it; in particular, when the backend echoes the prompt at the front, exactly
the leading echo is deleted and the remainder is trimmed and normalized. -/
theorem callHuggingFace_echo_stripped (p rest : Str) (config : LLMConfig)
    (em : Option String) (st : String) (h : trimBoth rest ≠ []) :
    callHuggingFace (String.mk p) config
      { ok := true, errorField := em, statusText := st,
        generated := some (String.mk (p ++ rest)) } =
    Except.ok (cleanResponseStr (String.mk (trimBoth rest))) := by
  have hrest : rest ≠ [] := by
    intro he
    exact h (by rw [he]; rfl)
  have hgen : ¬(String.mk (p ++ rest) = "") := by
    intro he
    have h2 := congrArg String.data he
    simp only [String] at h2
    have h3 : p ++ rest = [] := h2
    exact hrest (List.append_eq_nil.mp h3).2
  have hraw : hfRawText (String.mk p)
      { ok := true, errorField := em, statusText := st,
        generated := some (String.mk (p ++ rest)) } = String.mk (trimBoth rest) := by
    show (if String.mk (p ++ rest) = "" then ""
      else String.mk (trimBoth (removeFirst p (p ++ rest)))) = String.mk (trimBoth rest)
    rw [if_neg hgen, removeFirst_append_self]
  have hne : ¬(hfRawText (String.mk p)
      { ok := true, errorField := em, statusText := st,
        generated := some (String.mk (p ++ rest)) } = "") := by
    rw [hraw]
    intro he
    have h2 := congrArg String.data he
    exact h h2
  show (if hfRawText (String.mk p)
      { ok := true, errorField := em, statusText := st,
        generated := some (String.mk (p ++ rest)) } = "" then
      Except.error "No response from Hugging Face"
    else Except.ok (cleanResponseStr (hfRawText (String.mk p)
      { ok := true, errorField := em, statusText := st,
        generated := some (String.mk (p ++ rest)) }))) = _
  rw [if_neg hne, hraw]

/-- C8 (witness): the echo-stripping behavior at a concrete echoed reply. -/
theorem callHuggingFace_echo_stripped_witness :
    trimBoth " done".toList ≠ ([] : Str) ∧
    callHuggingFace (String.mk "P".toList)
      { provider := "huggingface", apiKey := "k", model := none, baseUrl := none }
      { ok := true, errorField := none, statusText := "OK",
        generated := some (String.mk ("P".toList ++ " done".toList)) } =
    Except.ok (cleanResponseStr (String.mk (trimBoth " done".toList))) :=
  ⟨by decide, callHuggingFace_echo_stripped "P".toList " done".toList _ none "OK" (by decide)⟩

end ResumeAI
